import Mathlib

/-!
Verification development for the gateway connection layer of the
openclaw-multichat client.

The definitions below are a shallow embedding of the two source modules
that the connection core consists of:

* `src/src/composables/useDeviceAuth.ts` — `buildDeviceAuthPayload`
  (the string handed to the Ed25519 signing routine);
* `src/src/composables/useGatewayWs.ts` — the WebSocket connection
  state machine (`connect`, `disconnect`, `scheduleReconnect`,
  `sendConnectReq`, `handleMessage`, `rpc`, `flushPending`, `sendRaw`).

Inbound frames are parsed JSON; they are embedded as the inductive
`JVal`, with JavaScript field access (`msg.type`, `msg.payload` and so
on) embedded as `JVal.get?` and JavaScript truthiness as `JVal.truthy`.
The mutable module state (connection status, pending map, backoff,
timers, flags) is the record `GwState`.  Each externally triggered
callback of the source (socket open / message / close / error events,
the two RPC timer callbacks, and the exported `connect`, `disconnect`
and `rpc` entry points) is one constructor of `Ev`, and `step` runs the
corresponding handler body, returning the updated state together with
the list of caller-visible effects (`Eff`): promise settlements,
registered callbacks being invoked, frames sent, strings signed.
Backoff delays are JavaScript numbers in the source; every value the
backoff computation can reach is an exact dyadic rational, so they are
embedded as `ℚ`.
-/

/-- Parsed JSON values, as delivered by `JSON.parse` in `ws.onmessage`. -/
inductive JVal where
  | null
  | bool (b : Bool)
  | num (n : Int)
  | str (s : String)
  | arr (xs : List JVal)
  | obj (fields : List (String × JVal))

/-- Field lookup on a list of JSON object fields (first match). -/
def getField : List (String × JVal) → String → Option JVal
  | [], _ => none
  | e :: r, k => if e.1 = k then some e.2 else getField r k

/-- JavaScript property access `v[k]`: a field of an object, otherwise
`undefined` (embedded as `none`). -/
def JVal.get? : JVal → String → Option JVal
  | .obj fs, k => getField fs k
  | _, _ => none

/-- JavaScript truthiness of a JSON value. -/
def JVal.truthy : JVal → Bool
  | .null => false
  | .bool b => b
  | .num n => !(n == 0)
  | .str s => !(s == "")
  | .arr _ => true
  | .obj _ => true

/-- Truthiness of a possibly missing value (`undefined` is falsy). -/
def jTruthy : Option JVal → Bool
  | some v => v.truthy
  | none => false

theorem truthy_bool (b : Bool) : (JVal.bool b).truthy = b := rfl

mutual

/-- JavaScript string coercion `String(v)` of a JSON value, as the
`Error` constructor applies it to a non-string argument: numbers print
in decimal, booleans and null by name, arrays join their coerced
elements with commas (null elements render empty), and plain objects
render as `[object Object]`. -/
def jsToString : JVal → String
  | .null => "null"
  | .bool b => if b then "true" else "false"
  | .num n => toString n
  | .str s => s
  | .arr xs => jsArrJoin xs
  | .obj _ => "[object Object]"

/-- `Array.prototype.join(",")` with JavaScript element coercion. -/
def jsArrJoin : List JVal → String
  | [] => ""
  | [x] => jsArrElem x
  | x :: r => jsArrElem x ++ "," ++ jsArrJoin r

/-- One array element under `join`: null renders empty, everything
else by `String(v)`. -/
def jsArrElem : JVal → String
  | .null => ""
  | v => jsToString v

end

/-- `Array.prototype.join(sep)` on a list of strings. -/
def joinSep (sep : String) : List String → String
  | [] => ""
  | [x] => x
  | x :: r => x ++ sep ++ joinSep sep r

/-- The parameter object taken by `buildDeviceAuthPayload` in
`useDeviceAuth.ts` (`token : string | null`, `nonce?: string`). -/
structure DeviceAuthParams where
  deviceId : String
  clientId : String
  clientMode : String
  role : String
  scopes : List String
  signedAtMs : Nat
  token : Option String
  nonce : Option String

/-- `buildDeviceAuthPayload` from `useDeviceAuth.ts`: the version tag is
`v2` exactly when `params.nonce` is truthy (present and non-empty,
mirroring `params.nonce ? 'v2' : 'v1'`), the scopes are comma-joined,
and the fields are pipe-joined, with the nonce appended as a ninth
field in the `v2` case. -/
def buildDeviceAuthPayload (p : DeviceAuthParams) : String :=
  let version := if p.nonce.getD "" = "" then "v1" else "v2"
  let scopes := joinSep "," p.scopes
  let token := p.token.getD ""
  let base := [version, p.deviceId, p.clientId, p.clientMode, p.role,
               scopes, toString p.signedAtMs, token]
  let base := if version = "v2" then base ++ [p.nonce.getD ""] else base
  joinSep "|" base

/-- `connection.status` values of `ConnectionState`. -/
inductive Status where
  | disconnected
  | connecting
  | connected
  | error
deriving DecidableEq, Repr

/-- What a pending-map entry settles when invoked: the entry registered
by `sendConnectReq` (whose resolve handler marks the connection
connected and which has no timeout timer), or an entry registered by
`rpc` for `method` with its timeout duration in milliseconds. -/
inductive PKind where
  | connectH
  | rpcH (method : String) (timeoutMs : Nat)
deriving DecidableEq, Repr

/-- The timeout passed to `setTimeout` in `rpc`. -/
def rpcTimeoutMs : Nat := 30000

/-- `pending.get id` on the insertion-ordered pending map. -/
def plook (id : String) : List (String × PKind) → Option PKind
  | [] => none
  | e :: r => if e.1 = id then some e.2 else plook id r

/-- `pending.delete id`. -/
def pdel (id : String) : List (String × PKind) → List (String × PKind)
  | [] => []
  | e :: r => if e.1 = id then pdel id r else e :: pdel id r

/-- `pending.set id v`: replaces in place when the key exists, otherwise
appends (JavaScript `Map` keeps insertion order). -/
def pset (l : List (String × PKind)) (id : String) (v : PKind) :
    List (String × PKind) :=
  match l with
  | [] => [(id, v)]
  | e :: r => if e.1 = id then (id, v) :: r else e :: pset r id v

/-- The options object handed to `useGatewayWs`, together with the
device identity obtained from `getOrCreateDeviceIdentity` (the identity
is stable within a process, so it is a parameter of the machine). -/
structure Opts where
  url : String
  token : String
  deviceId : String

/-- The mutable state closed over by `useGatewayWs`: `connection`
(status and error text), the socket handle (`ws` non-null, and whether
its readyState is OPEN), the pending map, the reconnect timer (carrying
the delay it was armed with), `backoffMs`, `shouldReconnect`, and the
request id counter behind `nextId`. -/
structure GwState where
  status : Status
  error : Option String
  wsExists : Bool
  wsOpen : Bool
  pending : List (String × PKind)
  reconnectTimer : Option ℚ
  backoffMs : ℚ
  shouldReconnect : Bool
  reqCounter : Nat
deriving DecidableEq

/-- The initial values of the mutable state in `useGatewayWs`. -/
def initState : GwState :=
  { status := .disconnected
    error := none
    wsExists := false
    wsOpen := false
    pending := []
    reconnectTimer := none
    backoffMs := 1000
    shouldReconnect := false
    reqCounter := 0 }

/-- Caller-visible effects of one handler run: socket opened, a promise
resolved or rejected, the registered event / connected / disconnected
callback invoked, a payload string handed to the signing routine, the
signed connect request sent, an RPC request frame sent. -/
inductive Eff where
  | opened (url : String)
  | resolved (id : String) (payload : JVal)
  | rejected (id : String) (message : String)
  | onEvent (event : JVal) (payload : JVal)
  | onConnected
  | onDisconnected
  | signed (payload : String)
  | sentConnect (id : String) (authPayload : String) (nonce : Option String)
      (signedAtMs : Nat)
  | sentReq (id : String) (method : String) (params : JVal)

/-- Whether an effect is a promise rejection. -/
def Eff.isRejected : Eff → Bool
  | .rejected _ _ => true
  | _ => false

/-- Whether an effect is an invocation of the registered event callback. -/
def Eff.isOnEvent : Eff → Bool
  | .onEvent _ _ => true
  | _ => false

/-- Whether an effect opens a new socket. -/
def Eff.isOpened : Eff → Bool
  | .opened _ => true
  | _ => false

/-- External stimuli processed by the connection layer: the exported
`connect` / `disconnect` / `rpc` entry points, the socket events, an
RPC timeout timer firing, the reconnect timer firing, and an inbound
parsed frame (carrying the `Date.now()` reading of the moment it is
handled). -/
inductive Ev where
  | connectCall
  | disconnectCall
  | rpcCall (method : String) (params : JVal) (now : Nat)
  | wsOpenEv
  | wsClose (code : Nat) (reason : String)
  | wsError
  | timeoutFire (id : String)
  | retryFire
  | msg (now : Nat) (m : JVal)

/-- `nextId`: the id string built from the incremented counter and the
current time. -/
def mkId (c : Nat) (now : Nat) : String :=
  "r_" ++ toString c ++ "_" ++ toString now

/-- `Math.min(backoffMs * 1.5, 30000)`, the update applied after the
reconnect timer fires. -/
def nextBackoff (b : ℚ) : ℚ := min (b * (3 / 2)) 30000

/-- The sequence of retry delays starting from the floor value. -/
def backoffSeq : Nat → ℚ
  | 0 => 1000
  | n + 1 => nextBackoff (backoffSeq n)

/-- The per-entry rejections emitted by `flushPending`: the entries
registered by `rpc` reject their caller promise with the given message;
the entry registered by `sendConnectReq` has a reject handler that only
mutates the connection state. -/
def flushEffs (emsg : String) (l : List (String × PKind)) : List Eff :=
  l.filterMap fun e =>
    match e.2 with
    | .rpcH _ _ => some (Eff.rejected e.1 emsg)
    | .connectH => none

/-- Whether the pending map holds an entry registered by
`sendConnectReq` (whose reject handler sets the connection status). -/
def hasConnectH (l : List (String × PKind)) : Bool :=
  l.any fun e =>
    match e.2 with
    | .connectH => true
    | _ => false

/-- The loop body of `flushPending`: walk the map in insertion order
invoking each reject handler, threading the state mutations performed
by the `sendConnectReq` reject handler. -/
def flushAux (emsg : String) (st : GwState) :
    List (String × PKind) → GwState × List Eff
  | [] => (st, [])
  | (id, .rpcH _ _) :: r =>
      let p := flushAux emsg st r
      (p.1, Eff.rejected id emsg :: p.2)
  | (_, .connectH) :: r =>
      flushAux emsg { st with status := .error, error := some emsg } r

/-- `flushPending(err)`: reject every pending entry, then clear the map. -/
def flushPending (st : GwState) (emsg : String) : GwState × List Eff :=
  let p := flushAux emsg st st.pending
  ({ p.1 with pending := [] }, p.2)

/-- The payload forwarded to the registered event callback:
`(msg.payload || msg)`. -/
def fwdPayload (m : JVal) : JVal :=
  match m.get? "payload" with
  | some p => if p.truthy then p else m
  | none => m

/-- The message of the rejection error built by the response handler:
`typeof err === 'string' ? err : err?.message || 'RPC error'` followed
by `new Error(errMsg)`.  A plain-string error field is used as the
message verbatim; otherwise a truthy `message` value is coerced to a
string by the `Error` constructor (a non-empty string stays itself);
a missing error field, a `message`-less value, or a falsy `message`
(empty string, 0, false, null) yields the generic message. -/
def errMsgOf : Option JVal → String
  | some (.str s) => s
  | some v =>
      match v.get? "message" with
      | some mv => if mv.truthy then jsToString mv else "RPC error"
      | none => "RPC error"
  | none => "RPC error"

/-- The client descriptor constants fixed by `sendConnectReq`. -/
def uiScopes : List String :=
  ["operator.admin", "operator.approvals", "operator.pairing"]

/-- `sendConnectReq(nonce)`: build and sign the device auth payload,
register the connect pending entry (with no timeout timer), and send
the signed `connect` request when the socket is open. -/
def sendConnectReq (o : Opts) (now : Nat) (s : GwState)
    (nonce : Option String) : GwState × List Eff :=
  let id := mkId (s.reqCounter + 1) now
  let authPayload := buildDeviceAuthPayload
    { deviceId := o.deviceId
      clientId := "openclaw-control-ui"
      clientMode := "webchat"
      role := "operator"
      scopes := uiScopes
      signedAtMs := now
      token := some o.token
      nonce := nonce }
  let s1 := { s with
    reqCounter := s.reqCounter + 1
    pending := pset s.pending id .connectH }
  (s1, Eff.signed authPayload ::
    (if s.wsOpen then [Eff.sentConnect id authPayload nonce now] else []))

/-- `handleMessage(msg)` from `useGatewayWs.ts`: route a response frame
to its pending entry (resolving or rejecting it), handle the
`connect.challenge` event by launching `sendConnectReq`, and forward
every other event frame to the registered callback. -/
def handleMessage (o : Opts) (now : Nat) (s : GwState) (m : JVal) :
    GwState × List Eff :=
  match m.get? "type" with
  | some (.str t) =>
    if t = "res" then
      match m.get? "id" with
      | some (.str id) =>
        (match plook id s.pending with
         | none => (s, [])
         | some k =>
           let s1 := { s with pending := pdel id s.pending }
           if jTruthy (m.get? "ok") then
             match k with
             | .connectH =>
                 ({ s1 with status := .connected, backoffMs := 1000 },
                  [Eff.onConnected])
             | .rpcH _ _ =>
                 (s1, [Eff.resolved id ((m.get? "payload").getD .null)])
           else
             let emsg := errMsgOf (m.get? "error")
             match k with
             | .connectH =>
                 ({ s1 with status := .error, error := some emsg }, [])
             | .rpcH _ _ => (s1, [Eff.rejected id emsg]))
      | _ => (s, [])
    else if t = "event" then
      match m.get? "event" with
      | some (.str name) =>
        if name = "connect.challenge" then
          let nonce :=
            match m.get? "payload" with
            | some p =>
              (match p.get? "nonce" with
               | some (.str ns) => some ns
               | _ => none)
            | none => none
          sendConnectReq o now s nonce
        else (s, [Eff.onEvent (.str name) (fwdPayload m)])
      | other => (s, [Eff.onEvent (other.getD .null) (fwdPayload m)])
    else (s, [])
  | _ => (s, [])

/-- One handler run of the connection layer: dispatch an external
stimulus to the corresponding source handler body.  The socket closed
by `connect` (on a prior socket) or by `disconnect` raises its close
event later; that event arrives here as its own `wsClose` stimulus,
since the `onclose` handler reads and writes only the shared mutable
state. -/
def step (o : Opts) (s : GwState) : Ev → GwState × List Eff
  | .connectCall =>
      ({ s with
          shouldReconnect := true
          status := .connecting
          error := none
          wsExists := true
          wsOpen := false },
       [Eff.opened o.url])
  | .disconnectCall =>
      flushPending
        { s with
            shouldReconnect := false
            reconnectTimer := none
            wsExists := false
            wsOpen := false
            status := .disconnected }
        "disconnected"
  | .rpcCall method params now =>
      let id := mkId (s.reqCounter + 1) now
      ({ s with
          reqCounter := s.reqCounter + 1
          pending := pset s.pending id (.rpcH method rpcTimeoutMs) },
       if s.wsOpen then [Eff.sentReq id method params] else [])
  | .wsOpenEv => ({ s with wsOpen := true }, [])
  | .wsClose code reason =>
      let wasConnected := s.status = .connected
      let s1 :=
        if wasConnected then { s with status := .disconnected, wsOpen := false }
        else { s with status := .error, wsOpen := false }
      let s2 := { s1 with
        error := some (if reason = "" then "closed (" ++ toString code ++ ")"
                       else reason) }
      let p := flushPending s2 "disconnected"
      let s4 :=
        if p.1.shouldReconnect then
          { p.1 with reconnectTimer := some p.1.backoffMs }
        else p.1
      (s4, (if wasConnected then [Eff.onDisconnected] else []) ++ p.2)
  | .wsError =>
      ({ s with status := .error, error := some "WebSocket connection failed" },
       [])
  | .timeoutFire id =>
      match plook id s.pending with
      | some (.rpcH method _) =>
          ({ s with pending := pdel id s.pending },
           [Eff.rejected id ("RPC timeout: " ++ method)])
      | _ => (s, [])
  | .retryFire =>
      match s.reconnectTimer with
      | none => (s, [])
      | some _ =>
          ({ s with
              reconnectTimer := none
              shouldReconnect := true
              status := .connecting
              error := none
              wsExists := true
              wsOpen := false
              backoffMs := nextBackoff s.backoffMs },
           [Eff.opened o.url])
  | .msg now m => handleMessage o now s m

/-- A well-formed response frame `{type, id, ok, payload}`. -/
def resFrame (id : String) (ok : Bool) (payload : JVal) : JVal :=
  .obj [("type", .str "res"), ("id", .str id), ("ok", .bool ok),
        ("payload", payload)]

/-- A response frame `{type, id, ok:false, error}`. -/
def resErrFrame (id : String) (error : JVal) : JVal :=
  .obj [("type", .str "res"), ("id", .str id), ("ok", .bool false),
        ("error", error)]

/-- A response frame `{type, id, ok:false}` with no error field. -/
def resNoErrFrame (id : String) : JVal :=
  .obj [("type", .str "res"), ("id", .str id), ("ok", .bool false)]

/-- An event frame `{type:"event", event, payload}`. -/
def eventFrame (name : String) (payload : JVal) : JVal :=
  .obj [("type", .str "event"), ("event", .str name), ("payload", payload)]

/-- A `connect.challenge` frame whose payload carries an optional nonce. -/
def challengeFrame (nonce : Option String) : JVal :=
  eventFrame "connect.challenge"
    (.obj (match nonce with
           | some n => [("nonce", .str n)]
           | none => []))

/-! ## Pending-map lemmas -/

theorem plook_pset_self (l : List (String × PKind)) (id : String) (v : PKind) :
    plook id (pset l id v) = some v := by
  induction l with
  | nil => simp [pset, plook]
  | cons e r ih =>
    by_cases he : e.1 = id
    · simp [pset, plook, he]
    · simp [pset, plook, he, ih]

theorem plook_pset_ne (l : List (String × PKind)) (id id' : String) (v : PKind)
    (h : id' ≠ id) : plook id' (pset l id v) = plook id' l := by
  have hne : ¬(id = id') := fun hh => h hh.symm
  induction l with
  | nil => simp [pset, plook, hne]
  | cons e r ih =>
    by_cases he : e.1 = id
    · have he' : ¬(e.1 = id') := fun hh => hne (he.symm.trans hh)
      simp [pset, plook, he, he', hne]
    · by_cases he' : e.1 = id'
      · simp [pset, plook, he, he', h, hne]
      · simp [pset, plook, he, he', ih]

theorem plook_pdel_self (l : List (String × PKind)) (id : String) :
    plook id (pdel id l) = none := by
  induction l with
  | nil => rfl
  | cons e r ih =>
    by_cases he : e.1 = id
    · simp [pdel, he, ih]
    · simp [pdel, plook, he, ih]

theorem plook_pdel_ne (l : List (String × PKind)) (id id' : String)
    (h : id' ≠ id) : plook id' (pdel id l) = plook id' l := by
  have hne : ¬(id = id') := fun hh => h hh.symm
  induction l with
  | nil => rfl
  | cons e r ih =>
    by_cases he : e.1 = id
    · have he' : ¬(e.1 = id') := fun hh => hne (he.symm.trans hh)
      simp [pdel, plook, he, he', ih, h, hne]
    · by_cases he' : e.1 = id'
      · simp [pdel, plook, he, he', h, hne]
      · simp [pdel, plook, he, he', ih]

/-! ## flushPending lemmas -/

theorem hasConnectH_cons_rpc (id meth : String) (tmo : Nat)
    (r : List (String × PKind)) :
    hasConnectH ((id, .rpcH meth tmo) :: r) = hasConnectH r := by
  simp [hasConnectH]

theorem hasConnectH_cons_connect (id : String) (r : List (String × PKind)) :
    hasConnectH ((id, .connectH) :: r) = true := by
  simp [hasConnectH]

theorem flushAux_fst (m : String) (st : GwState) (l : List (String × PKind)) :
    (flushAux m st l).1 =
      if hasConnectH l then { st with status := .error, error := some m }
      else st := by
  induction l generalizing st with
  | nil => simp [flushAux, hasConnectH]
  | cons e r ih =>
    obtain ⟨id, k⟩ := e
    cases k with
    | rpcH meth tmo =>
      show (flushAux m st r).1 = _
      rw [ih, hasConnectH_cons_rpc]
    | connectH =>
      show (flushAux m { st with status := .error, error := some m } r).1 = _
      rw [ih, hasConnectH_cons_connect]
      split <;> rfl

theorem flushAux_snd (m : String) (st : GwState) (l : List (String × PKind)) :
    (flushAux m st l).2 = flushEffs m l := by
  induction l generalizing st with
  | nil => rfl
  | cons e r ih =>
    obtain ⟨id, k⟩ := e
    cases k with
    | rpcH meth tmo =>
      show Eff.rejected id m :: (flushAux m st r).2 = _
      rw [ih]
      rfl
    | connectH =>
      show (flushAux m { st with status := .error, error := some m } r).2 = _
      rw [ih]
      rfl

theorem flushPending_eq (st : GwState) (m : String) :
    flushPending st m =
      ({ (if hasConnectH st.pending then
            { st with status := .error, error := some m } else st) with
          pending := [] },
       flushEffs m st.pending) := by
  unfold flushPending
  refine Prod.ext ?_ (flushAux_snd m st st.pending)
  show ({ (flushAux m st st.pending).1 with pending := [] } : GwState) = _
  rw [flushAux_fst]

/-! ## Shape of the close and disconnect handlers -/

theorem step_wsClose (o : Opts) (s : GwState) (code : Nat) (reason : String) :
    step o s (Ev.wsClose code reason) =
      ({ s with
          status := if hasConnectH s.pending then Status.error
                    else if s.status = Status.connected then Status.disconnected
                    else Status.error
          error := some (if hasConnectH s.pending then "disconnected"
                         else if reason = "" then
                           "closed (" ++ toString code ++ ")"
                         else reason)
          wsOpen := false
          pending := []
          reconnectTimer := if s.shouldReconnect then some s.backoffMs
                            else s.reconnectTimer },
       (if s.status = Status.connected then [Eff.onDisconnected] else []) ++
         flushEffs "disconnected" s.pending) := by
  by_cases h1 : s.status = Status.connected <;>
    by_cases h2 : hasConnectH s.pending <;>
      by_cases h3 : s.shouldReconnect <;>
        simp [step, flushPending_eq, h1, h2, h3]

theorem step_disconnect (o : Opts) (s : GwState) :
    step o s Ev.disconnectCall =
      ({ s with
          shouldReconnect := false
          reconnectTimer := none
          wsExists := false
          wsOpen := false
          status := if hasConnectH s.pending then Status.error
                    else Status.disconnected
          error := if hasConnectH s.pending then some "disconnected"
                   else s.error
          pending := [] },
       flushEffs "disconnected" s.pending) := by
  by_cases h2 : hasConnectH s.pending <;> simp [step, flushPending_eq, h2]

/-! ## C1 -/

/-- C1: when the transport closes, every pending RPC promise is rejected
exactly once — the close handler emits exactly the list with one
`Disconnected` ("disconnected") rejection per pending RPC entry, in map
order, after the optional disconnected callback — the pending map is
left empty, and a following `connect()` starts with the map still
empty, so no pending request survives into the next connection
attempt. -/
theorem c1_close_rejects_all_pending (o : Opts) (s : GwState) (code : Nat)
    (reason : String) :
    (step o s (Ev.wsClose code reason)).1.pending = [] ∧
    (step o s (Ev.wsClose code reason)).2 =
      (if s.status = Status.connected then [Eff.onDisconnected] else []) ++
        flushEffs "disconnected" s.pending ∧
    (step o (step o s (Ev.wsClose code reason)).1 Ev.connectCall).1.pending
      = [] := by
  rw [step_wsClose]
  refine ⟨rfl, rfl, ?_⟩
  simp [step]

/-! ## C4 -/

theorem backoffSeq_le (n : Nat) : backoffSeq n ≤ 30000 := by
  cases n with
  | zero => norm_num [backoffSeq]
  | succ k =>
    show nextBackoff (backoffSeq k) ≤ 30000
    exact min_le_right _ _

/-- C4: the retry delay armed by the close handler is the current
`backoffMs`; when the retry timer fires, the next interval becomes
`min(backoffMs * 1.5, 30000)`; starting from the floor this yields the
delays 1000, 1500, 2250, ... never exceeding 30000; and a successful
handshake response (an ok response routed to the pending connect
entry) resets `backoffMs` to 1000. -/
theorem c4_backoff_policy :
    (∀ (o : Opts) (s : GwState) (code : Nat) (reason : String),
       s.shouldReconnect = true →
       (step o s (Ev.wsClose code reason)).1.reconnectTimer
         = some s.backoffMs) ∧
    (∀ (o : Opts) (s : GwState) (d : ℚ), s.reconnectTimer = some d →
       (step o s Ev.retryFire).1.backoffMs = nextBackoff s.backoffMs) ∧
    initState.backoffMs = backoffSeq 0 ∧
    backoffSeq 0 = 1000 ∧ backoffSeq 1 = 1500 ∧ backoffSeq 2 = 2250 ∧
    (∀ n, backoffSeq n ≤ 30000) ∧
    (∀ (o : Opts) (s : GwState) (id : String) (now : Nat) (p : JVal),
       plook id s.pending = some PKind.connectH →
       (step o s (Ev.msg now (resFrame id true p))).1.backoffMs = 1000) := by
  refine ⟨?_, ?_, rfl, rfl, ?_, ?_, backoffSeq_le, ?_⟩
  · intro o s code reason h
    rw [step_wsClose]
    simp [h]
  · intro o s d h
    simp [step, h]
  · show nextBackoff (backoffSeq 0) = 1500
    norm_num [backoffSeq, nextBackoff]
  · show nextBackoff (backoffSeq 1) = 2250
    show nextBackoff (nextBackoff (backoffSeq 0)) = 2250
    norm_num [backoffSeq, nextBackoff]
  · intro o s id now p h
    simp [step, handleMessage, resFrame, JVal.get?, getField, h, jTruthy,
      JVal.truthy]

/-! ## C2 -/

/-- C2 counterexample: with a present but empty nonce (`{nonce: ""}` in
the challenge payload, so `params.nonce` is `some ""`), the payload
string carries the `v1` tag and no ninth field, not the `v2` form the
claim requires for every present nonce — `params.nonce ? 'v2' : 'v1'`
tests truthiness, and the empty string is falsy. -/
theorem c2_counterexample :
    (some "" : Option String).isSome = true ∧
    buildDeviceAuthPayload
      { deviceId := "d", clientId := "openclaw-control-ui",
        clientMode := "webchat", role := "operator", scopes := uiScopes,
        signedAtMs := 7, token := some "t", nonce := some "" } =
      "v1|d|openclaw-control-ui|webchat|operator|operator.admin,operator.approvals,operator.pairing|7|t" ∧
    ¬ (buildDeviceAuthPayload
        { deviceId := "d", clientId := "openclaw-control-ui",
          clientMode := "webchat", role := "operator", scopes := uiScopes,
          signedAtMs := 7, token := some "t", nonce := some "" } =
      "v2|d|openclaw-control-ui|webchat|operator|operator.admin,operator.approvals,operator.pairing|7|t|") := by
  refine ⟨rfl, by decide, by decide⟩

/-- C2 (amended): the string handed to the signing routine is the
pipe-joined concatenation of version tag, deviceId, clientId,
clientMode, role, comma-joined scopes, signedAtMs and token; a present
non-empty nonce makes the tag `v2` and appends the nonce as a ninth
field, while an absent or empty nonce makes the tag `v1` with no nonce
field; and the challenge handler signs exactly the payload built from
the fixed client constants, the device id, the caller token and the
challenge nonce. -/
theorem c2_auth_payload (p : DeviceAuthParams) :
    (∀ n, p.nonce = some n → n ≠ "" →
       buildDeviceAuthPayload p =
         "v2" ++ "|" ++ p.deviceId ++ "|" ++ p.clientId ++ "|" ++
           p.clientMode ++ "|" ++ p.role ++ "|" ++ joinSep "," p.scopes ++
           "|" ++ toString p.signedAtMs ++ "|" ++ p.token.getD "" ++
           "|" ++ n) ∧
    ((p.nonce = none ∨ p.nonce = some "") →
       buildDeviceAuthPayload p =
         "v1" ++ "|" ++ p.deviceId ++ "|" ++ p.clientId ++ "|" ++
           p.clientMode ++ "|" ++ p.role ++ "|" ++ joinSep "," p.scopes ++
           "|" ++ toString p.signedAtMs ++ "|" ++ p.token.getD "") ∧
    (∀ (o : Opts) (s : GwState) (now : Nat) (n : String), ∃ rest,
       (step o s (Ev.msg now (challengeFrame (some n)))).2 =
         Eff.signed (buildDeviceAuthPayload
           { deviceId := o.deviceId
             clientId := "openclaw-control-ui"
             clientMode := "webchat"
             role := "operator"
             scopes := uiScopes
             signedAtMs := now
             token := some o.token
             nonce := some n }) :: rest) := by
  refine ⟨?_, ?_, ?_⟩
  · intro n hn hne
    simp [buildDeviceAuthPayload, hn, hne, joinSep, String.append_assoc]
  · intro hn
    rcases hn with hn | hn <;>
      simp [buildDeviceAuthPayload, hn, joinSep, String.append_assoc]
  · intro o s now n
    refine ⟨if s.wsOpen then
              [Eff.sentConnect (mkId (s.reqCounter + 1) now)
                (buildDeviceAuthPayload
                  { deviceId := o.deviceId
                    clientId := "openclaw-control-ui"
                    clientMode := "webchat"
                    role := "operator"
                    scopes := uiScopes
                    signedAtMs := now
                    token := some o.token
                    nonce := some n }) (some n) now]
            else [], ?_⟩
    simp [step, handleMessage, challengeFrame, eventFrame, JVal.get?,
      getField, sendConnectReq]

/-! ## C3 -/

/-- C3: an ok response with id X resolves exactly the pending call
registered under X, with the payload as value, removing only that
entry from the map (all other pending entries keep their lookup
results); a response whose id matches no pending entry leaves the
state unchanged and produces no effect. -/
theorem c3_res_routing (o : Opts) (s : GwState) (now : Nat) (id : String)
    (p : JVal) :
    (∀ meth tmo, plook id s.pending = some (PKind.rpcH meth tmo) →
       step o s (Ev.msg now (resFrame id true p)) =
         ({ s with pending := pdel id s.pending }, [Eff.resolved id p])) ∧
    (plook id s.pending = none →
       step o s (Ev.msg now (resFrame id true p)) = (s, [])) ∧
    (∀ id2, id2 ≠ id → plook id2 (pdel id s.pending) = plook id2 s.pending) := by
  refine ⟨?_, ?_, ?_⟩
  · intro meth tmo h
    simp [step, handleMessage, resFrame, JVal.get?, getField, h, jTruthy,
      JVal.truthy]
  · intro h
    simp [step, handleMessage, resFrame, JVal.get?, getField, h]
  · intro id2 h2
    exact plook_pdel_ne s.pending id id2 h2

/-! ## C6 -/

/-- C6: an RPC registers a pending entry whose timeout constant is
30000 ms; when that timeout fires the promise rejects with the
`RPC timeout` error, only the pending entry is removed (status, error,
backoff and retry timer are untouched), and a response frame with the
same id arriving afterwards is ignored without any effect. -/
theorem c6_rpc_timeout (o : Opts) (s : GwState) (method : String)
    (params : JVal) (now now2 : Nat) (p : JVal) (id : String)
    (s1 s2 : GwState)
    (hid : id = mkId (s.reqCounter + 1) now)
    (hs1 : s1 = (step o s (Ev.rpcCall method params now)).1)
    (hs2 : s2 = (step o s1 (Ev.timeoutFire id)).1) :
    rpcTimeoutMs = 30000 ∧
    plook id s1.pending = some (PKind.rpcH method rpcTimeoutMs) ∧
    step o s1 (Ev.timeoutFire id) =
      ({ s1 with pending := pdel id s1.pending },
       [Eff.rejected id ("RPC timeout: " ++ method)]) ∧
    s2.status = s.status ∧ s2.error = s.error ∧
    s2.backoffMs = s.backoffMs ∧ s2.reconnectTimer = s.reconnectTimer ∧
    step o s2 (Ev.msg now2 (resFrame id true p)) = (s2, []) := by
  subst hid hs1 hs2
  refine ⟨rfl, ?_, ?_, ?_, ?_, ?_, ?_, ?_⟩
  · simp [step, plook_pset_self]
  · simp [step, plook_pset_self]
  · simp [step, plook_pset_self]
  · simp [step, plook_pset_self]
  · simp [step, plook_pset_self]
  · simp [step, plook_pset_self]
  · simp [step, handleMessage, resFrame, JVal.get?, getField,
      plook_pset_self, plook_pdel_self]

/-! ## C8 -/

/-- The concrete options used for closed instances. -/
def demoOpts : Opts := { url := "wss://gw", token := "tok", deviceId := "dev" }

/-- C8 counterexample: against a pending RPC entry, a response with
`ok:false` whose error field is the plain string "boom" rejects with
message "boom" — the server-supplied string itself, not a generic
message — and a response whose error field is an object carrying the
message "" rejects with the generic "RPC error", not the
server-supplied message: both halves of the claim fail on the code. -/
theorem c8_counterexample :
    ((step demoOpts { initState with pending := [("x", PKind.rpcH "m" 30000)] }
        (Ev.msg 0 (resErrFrame "x" (JVal.str "boom")))).2
      = [Eff.rejected "x" "boom"] ∧
     "boom" ≠ "RPC error") ∧
    ((step demoOpts { initState with pending := [("x", PKind.rpcH "m" 30000)] }
        (Ev.msg 0 (resErrFrame "x"
          (JVal.obj [("message", JVal.str "")])))).2
      = [Eff.rejected "x" "RPC error"] ∧
     "RPC error" ≠ "") := by
  exact ⟨⟨rfl, by decide⟩, ⟨rfl, by decide⟩⟩

/-- C8 (amended): on an `ok:false` response matching a pending RPC, a
plain-string error field rejects with that string itself as the
message; an object error field whose `message` value is truthy rejects
with the JavaScript string coercion of that value — in particular with
the message itself when it is a non-empty string; and the rejection
message is the generic "RPC error" when the error field is missing or
null, when the object has no `message` field, or when the `message`
value is falsy (such as the empty string). -/
theorem c8_error_messages (o : Opts) (s : GwState) (now : Nat)
    (id method : String) (tmo : Nat)
    (h : plook id s.pending = some (PKind.rpcH method tmo)) :
    (∀ str, step o s (Ev.msg now (resErrFrame id (JVal.str str))) =
       ({ s with pending := pdel id s.pending }, [Eff.rejected id str])) ∧
    (∀ mv : JVal, mv.truthy = true →
       step o s (Ev.msg now (resErrFrame id (JVal.obj [("message", mv)]))) =
         ({ s with pending := pdel id s.pending },
          [Eff.rejected id (jsToString mv)])) ∧
    (∀ emsg, emsg ≠ "" →
       step o s (Ev.msg now
           (resErrFrame id (JVal.obj [("message", JVal.str emsg)]))) =
         ({ s with pending := pdel id s.pending }, [Eff.rejected id emsg])) ∧
    (∀ mv : JVal, mv.truthy = false →
       step o s (Ev.msg now (resErrFrame id (JVal.obj [("message", mv)]))) =
         ({ s with pending := pdel id s.pending },
          [Eff.rejected id "RPC error"])) ∧
    (step o s (Ev.msg now (resErrFrame id (JVal.obj []))) =
       ({ s with pending := pdel id s.pending },
        [Eff.rejected id "RPC error"])) ∧
    (step o s (Ev.msg now (resErrFrame id JVal.null)) =
       ({ s with pending := pdel id s.pending },
        [Eff.rejected id "RPC error"])) ∧
    (step o s (Ev.msg now (resNoErrFrame id)) =
       ({ s with pending := pdel id s.pending },
        [Eff.rejected id "RPC error"])) := by
  refine ⟨?_, ?_, ?_, ?_, ?_, ?_, ?_⟩
  · intro str
    simp [step, handleMessage, resErrFrame, JVal.get?, getField, h, jTruthy,
      JVal.truthy, errMsgOf]
  · intro mv hmv
    simp [step, handleMessage, resErrFrame, JVal.get?, getField, h, jTruthy,
      truthy_bool, errMsgOf, hmv]
  · intro emsg hne
    simp [step, handleMessage, resErrFrame, JVal.get?, getField, h, jTruthy,
      JVal.truthy, errMsgOf, jsToString, hne]
  · intro mv hmv
    simp [step, handleMessage, resErrFrame, JVal.get?, getField, h, jTruthy,
      truthy_bool, errMsgOf, hmv]
  · simp [step, handleMessage, resErrFrame, JVal.get?, getField, h, jTruthy,
      JVal.truthy, errMsgOf]
  · simp [step, handleMessage, resErrFrame, JVal.get?, getField, h, jTruthy,
      JVal.truthy, errMsgOf]
  · simp [step, handleMessage, resNoErrFrame, JVal.get?, getField, h,
      jTruthy, JVal.truthy, errMsgOf]

/-! ## C9 -/

/-- C9: an event frame whose name is not `connect.challenge` and whose
payload is an object is forwarded verbatim — event name and payload —
to the registered callback, with no state change; a
`connect.challenge` frame is never forwarded to the callback and
instead registers the handshake connect entry in the pending map. -/
theorem c9_event_dispatch (o : Opts) (s : GwState) (now : Nat)
    (name : String) (fs : List (String × JVal)) :
    (name ≠ "connect.challenge" →
       step o s (Ev.msg now (eventFrame name (JVal.obj fs))) =
         (s, [Eff.onEvent (JVal.str name) (JVal.obj fs)])) ∧
    (∀ payload : JVal,
       ∀ eff ∈ (step o s
           (Ev.msg now (eventFrame "connect.challenge" payload))).2,
         eff.isOnEvent = false) ∧
    (∀ payload : JVal,
       plook (mkId (s.reqCounter + 1) now)
         (step o s
            (Ev.msg now (eventFrame "connect.challenge" payload))).1.pending
       = some PKind.connectH) := by
  refine ⟨?_, ?_, ?_⟩
  · intro h
    simp [step, handleMessage, eventFrame, JVal.get?, getField, h,
      fwdPayload, JVal.truthy]
  · intro payload eff heff
    by_cases hw : s.wsOpen
    · simp [step, handleMessage, eventFrame, JVal.get?, getField,
        sendConnectReq, hw] at heff
      rcases heff with h | h <;> subst h <;> rfl
    · simp [step, handleMessage, eventFrame, JVal.get?, getField,
        sendConnectReq, hw] at heff
      subst heff
      rfl
  · intro payload
    simp [step, handleMessage, eventFrame, JVal.get?, getField,
      sendConnectReq, plook_pset_self]

/-! ## Exhaustive characterization of handleMessage -/

theorem handleMessage_shape (o : Opts) (now : Nat) (s : GwState) (m : JVal) :
    handleMessage o now s m = (s, []) ∨
    (∃ name pl, handleMessage o now s m = (s, [Eff.onEvent name pl])) ∨
    (∃ nonce, handleMessage o now s m = sendConnectReq o now s nonce) ∨
    (∃ id, m.get? "type" = some (JVal.str "res") ∧
       m.get? "id" = some (JVal.str id) ∧
       ((plook id s.pending = some PKind.connectH ∧
           jTruthy (m.get? "ok") = true ∧
           handleMessage o now s m =
             ({ s with
                 pending := pdel id s.pending
                 status := .connected
                 backoffMs := 1000 }, [Eff.onConnected])) ∨
        (∃ meth tmo, plook id s.pending = some (PKind.rpcH meth tmo) ∧
           jTruthy (m.get? "ok") = true ∧
           handleMessage o now s m =
             ({ s with pending := pdel id s.pending },
              [Eff.resolved id ((m.get? "payload").getD .null)])) ∨
        (plook id s.pending = some PKind.connectH ∧
           jTruthy (m.get? "ok") = false ∧
           handleMessage o now s m =
             ({ s with
                 pending := pdel id s.pending
                 status := .error
                 error := some (errMsgOf (m.get? "error")) }, [])) ∨
        (∃ meth tmo, plook id s.pending = some (PKind.rpcH meth tmo) ∧
           jTruthy (m.get? "ok") = false ∧
           handleMessage o now s m =
             ({ s with pending := pdel id s.pending },
              [Eff.rejected id (errMsgOf (m.get? "error"))])))) := by
  cases hty : m.get? "type" with
  | none => exact Or.inl (by simp [handleMessage, hty])
  | some tv =>
    cases tv with
    | str t =>
      by_cases ht : t = "res"
      · subst ht
        cases hid : m.get? "id" with
        | none => exact Or.inl (by simp [handleMessage, hty, hid])
        | some idv =>
          cases idv with
          | str id =>
            cases hpl : plook id s.pending with
            | none => exact Or.inl (by simp [handleMessage, hty, hid, hpl])
            | some k =>
              by_cases hok : jTruthy (m.get? "ok")
              · cases k with
                | connectH =>
                  refine Or.inr (Or.inr (Or.inr
                    ⟨id, rfl, rfl, Or.inl ⟨hpl, hok, ?_⟩⟩))
                  simp [handleMessage, hty, hid, hpl, hok]
                | rpcH meth tmo =>
                  refine Or.inr (Or.inr (Or.inr
                    ⟨id, rfl, rfl, Or.inr (Or.inl ⟨meth, tmo, hpl, hok, ?_⟩)⟩))
                  simp [handleMessage, hty, hid, hpl, hok]
              · have hok' : jTruthy (m.get? "ok") = false := by
                  simpa using hok
                cases k with
                | connectH =>
                  refine Or.inr (Or.inr (Or.inr
                    ⟨id, rfl, rfl, Or.inr (Or.inr (Or.inl ⟨hpl, hok', ?_⟩))⟩))
                  simp [handleMessage, hty, hid, hpl, hok']
                | rpcH meth tmo =>
                  refine Or.inr (Or.inr (Or.inr
                    ⟨id, rfl, rfl,
                     Or.inr (Or.inr (Or.inr ⟨meth, tmo, hpl, hok', ?_⟩))⟩))
                  simp [handleMessage, hty, hid, hpl, hok']
          | null => exact Or.inl (by simp [handleMessage, hty, hid])
          | bool b => exact Or.inl (by simp [handleMessage, hty, hid])
          | num n => exact Or.inl (by simp [handleMessage, hty, hid])
          | arr xs => exact Or.inl (by simp [handleMessage, hty, hid])
          | obj gs => exact Or.inl (by simp [handleMessage, hty, hid])
      · by_cases hev : t = "event"
        · subst hev
          cases hen : m.get? "event" with
          | none =>
            refine Or.inr (Or.inl ⟨.null, fwdPayload m, ?_⟩)
            simp [handleMessage, hty, hen]
          | some env =>
            cases env with
            | str nm =>
              by_cases hnm : nm = "connect.challenge"
              · subst hnm
                refine Or.inr (Or.inr (Or.inl
                  ⟨(match m.get? "payload" with
                    | some p =>
                      (match p.get? "nonce" with
                       | some (JVal.str ns) => some ns
                       | _ => none)
                    | none => none), ?_⟩))
                simp [handleMessage, hty, hen]
              · refine Or.inr (Or.inl ⟨.str nm, fwdPayload m, ?_⟩)
                simp [handleMessage, hty, hen, hnm]
            | null =>
              refine Or.inr (Or.inl ⟨.null, fwdPayload m, ?_⟩)
              simp [handleMessage, hty, hen]
            | bool b =>
              refine Or.inr (Or.inl ⟨.bool b, fwdPayload m, ?_⟩)
              simp [handleMessage, hty, hen]
            | num n =>
              refine Or.inr (Or.inl ⟨.num n, fwdPayload m, ?_⟩)
              simp [handleMessage, hty, hen]
            | arr xs =>
              refine Or.inr (Or.inl ⟨.arr xs, fwdPayload m, ?_⟩)
              simp [handleMessage, hty, hen]
            | obj gs =>
              refine Or.inr (Or.inl ⟨.obj gs, fwdPayload m, ?_⟩)
              simp [handleMessage, hty, hen]
        · exact Or.inl (by simp [handleMessage, hty, ht, hev])
    | null => exact Or.inl (by simp [handleMessage, hty])
    | bool b => exact Or.inl (by simp [handleMessage, hty])
    | num n => exact Or.inl (by simp [handleMessage, hty])
    | arr xs => exact Or.inl (by simp [handleMessage, hty])
    | obj gs => exact Or.inl (by simp [handleMessage, hty])

/-! ## Helpers on sendConnectReq and flushEffs -/

theorem sendConnectReq_fst (o : Opts) (now : Nat) (s : GwState)
    (nonce : Option String) :
    (sendConnectReq o now s nonce).1 =
      { s with
          reqCounter := s.reqCounter + 1
          pending := pset s.pending (mkId (s.reqCounter + 1) now)
            PKind.connectH } := rfl

theorem flushEffs_mem (m : String) (l : List (String × PKind)) (eff : Eff)
    (h : eff ∈ flushEffs m l) : ∃ id, eff = Eff.rejected id m := by
  unfold flushEffs at h
  rcases List.mem_filterMap.mp h with ⟨a, _, hfa⟩
  obtain ⟨id, k⟩ := a
  cases k with
  | rpcH meth tmo =>
    refine ⟨id, ?_⟩
    simpa using hfa.symm
  | connectH => cases hfa

theorem sendConnectReq_eff_mem (o : Opts) (now : Nat) (s : GwState)
    (nonce : Option String) (eff : Eff)
    (h : eff ∈ (sendConnectReq o now s nonce).2) :
    eff.isOpened = false ∧ eff.isOnEvent = false := by
  by_cases hw : s.wsOpen
  · simp [sendConnectReq, hw] at h
    rcases h with h | h <;> subst h <;> exact ⟨rfl, rfl⟩
  · simp [sendConnectReq, hw] at h
    subst h
    exact ⟨rfl, rfl⟩

/-! ## C5 -/

/-- C5: the only transition that sets the connection status to
`connected` is the processing of a response frame, with truthy `ok`,
whose id matches a pending entry registered by the handshake connect
request on the current connection — after any other step the status is
`connected` only if it already was. -/
theorem c5_connected_only_after_handshake (o : Opts) (s : GwState) (e : Ev)
    (h : (step o s e).1.status = Status.connected) :
    s.status = Status.connected ∨
    ∃ now m id, e = Ev.msg now m ∧
      m.get? "type" = some (JVal.str "res") ∧
      m.get? "id" = some (JVal.str id) ∧
      plook id s.pending = some PKind.connectH ∧
      jTruthy (m.get? "ok") = true := by
  cases e with
  | connectCall => simp [step] at h
  | disconnectCall =>
    rw [step_disconnect] at h
    by_cases h2 : hasConnectH s.pending <;> simp [h2] at h
  | rpcCall meth params now =>
    simp [step] at h
    exact Or.inl h
  | wsOpenEv =>
    simp [step] at h
    exact Or.inl h
  | wsClose code reason =>
    rw [step_wsClose] at h
    by_cases h1 : hasConnectH s.pending <;>
      by_cases h2 : s.status = Status.connected <;> simp [h1, h2] at h
  | wsError => simp [step] at h
  | timeoutFire id =>
    cases hpl : plook id s.pending with
    | none =>
      simp [step, hpl] at h
      exact Or.inl h
    | some k =>
      cases k with
      | connectH =>
        simp [step, hpl] at h
        exact Or.inl h
      | rpcH meth tmo =>
        simp [step, hpl] at h
        exact Or.inl h
  | retryFire =>
    cases hrt : s.reconnectTimer with
    | none =>
      simp [step, hrt] at h
      exact Or.inl h
    | some d => simp [step, hrt] at h
  | msg now m =>
    have hstep : step o s (Ev.msg now m) = handleMessage o now s m := rfl
    rw [hstep] at h
    rcases handleMessage_shape o now s m with
      h0 | ⟨name, pl, h0⟩ | ⟨nonce, h0⟩ | ⟨id, hty, hid, hsub⟩
    · rw [h0] at h
      exact Or.inl h
    · rw [h0] at h
      exact Or.inl h
    · rw [h0, sendConnectReq_fst] at h
      exact Or.inl h
    · rcases hsub with ⟨hpl, hok, heq⟩ | ⟨meth, tmo, hpl, hok, heq⟩ |
        ⟨hpl, hok, heq⟩ | ⟨meth, tmo, hpl, hok, heq⟩
      · exact Or.inr ⟨now, m, id, rfl, hty, hid, hpl, hok⟩
      · rw [heq] at h
        exact Or.inl h
      · rw [heq] at h
        simp at h
      · rw [heq] at h
        exact Or.inl h

/-- A state with one pending handshake connect entry, used for closed
instances. -/
def connPendingState : GwState :=
  { initState with pending := [("c1", PKind.connectH)] }

theorem c5_connected_only_after_handshake_witness :
    connPendingState.status = Status.connected ∨
    ∃ now m id,
      (Ev.msg 5 (resFrame "c1" true JVal.null) : Ev) = Ev.msg now m ∧
      m.get? "type" = some (JVal.str "res") ∧
      m.get? "id" = some (JVal.str id) ∧
      plook id connPendingState.pending = some PKind.connectH ∧
      jTruthy (m.get? "ok") = true :=
  c5_connected_only_after_handshake demoOpts connPendingState
    (Ev.msg 5 (resFrame "c1" true JVal.null)) (by decide)

/-! ## C7 -/

/-- A connected state with automatic reconnection armed. -/
def c7DiscState : GwState :=
  { initState with
      status := .connected
      shouldReconnect := true
      wsExists := true
      wsOpen := true }

/-- C7 counterexample: immediately after `disconnect()` the status is
`disconnected`, but when the closing socket fires its close event the
`onclose` handler runs with a non-connected status and sets the status
to `error` — the status does not remain `disconnected` after the close
event is processed. -/
theorem c7_counterexample :
    (step demoOpts c7DiscState Ev.disconnectCall).1.status
      = Status.disconnected ∧
    (step demoOpts (step demoOpts c7DiscState Ev.disconnectCall).1
        (Ev.wsClose 1000 "")).1.status = Status.error :=
  ⟨rfl, rfl⟩

/-- The empty pending map holds no handshake connect entry. -/
theorem hasConnectH_nil : hasConnectH [] = false := rfl

/-- C7 (amended): `disconnect()` clears the reconnect flag and timer,
drops the socket, empties the pending map, and sets the status to
`disconnected` (to `error` when a pending handshake connect entry was
flushed, since its reject handler overrides the status); no automatic
reconnection happens afterwards — any further step other than
`connect()` keeps the reconnect flag false and the timer unarmed and
never opens a socket — but when the closing socket's close event is
processed the handler sets the status to `error` (still arming no
retry timer). -/
theorem c7_disconnect_behaviour (o : Opts) (s : GwState) (s1 : GwState)
    (hs1 : s1 = (step o s Ev.disconnectCall).1) :
    s1.shouldReconnect = false ∧ s1.reconnectTimer = none ∧
    s1.wsExists = false ∧ s1.wsOpen = false ∧ s1.pending = [] ∧
    s1.status = (if hasConnectH s.pending then Status.error
                 else Status.disconnected) ∧
    (∀ code reason,
       (step o s1 (Ev.wsClose code reason)).1.status = Status.error ∧
       (step o s1 (Ev.wsClose code reason)).1.reconnectTimer = none) ∧
    (∀ s' : GwState, s'.shouldReconnect = false → s'.reconnectTimer = none →
       ∀ e, e ≠ Ev.connectCall →
         (step o s' e).1.shouldReconnect = false ∧
         (step o s' e).1.reconnectTimer = none ∧
         ∀ eff ∈ (step o s' e).2, eff.isOpened = false) := by
  subst hs1
  refine ⟨?_, ?_, ?_, ?_, ?_, ?_, ?_, ?_⟩
  · simp [step_disconnect]
  · simp [step_disconnect]
  · simp [step_disconnect]
  · simp [step_disconnect]
  · simp [step_disconnect]
  · simp [step_disconnect]
  · intro code reason
    constructor
    · by_cases h2 : hasConnectH s.pending <;>
        simp [step_disconnect, step_wsClose, hasConnectH_nil, h2]
    · simp [step_disconnect, step_wsClose, hasConnectH_nil]
  · intro s' hsr hrt e hne
    cases e with
    | connectCall => exact absurd rfl hne
    | disconnectCall =>
      refine ⟨by simp [step_disconnect], by simp [step_disconnect], ?_⟩
      intro eff heff
      rw [step_disconnect] at heff
      obtain ⟨id, heq⟩ := flushEffs_mem _ _ _ heff
      subst heq
      rfl
    | wsClose code reason =>
      refine ⟨by simp [step_wsClose, hsr], by simp [step_wsClose, hsr, hrt],
        ?_⟩
      intro eff heff
      rw [step_wsClose] at heff
      rcases List.mem_append.mp heff with hm | hm
      · by_cases hc : s'.status = Status.connected
        · simp [hc] at hm
          subst hm
          rfl
        · simp [hc] at hm
      · obtain ⟨id, heq⟩ := flushEffs_mem _ _ _ hm
        subst heq
        rfl
    | rpcCall meth params now =>
      refine ⟨by simp [step, hsr], by simp [step, hrt], ?_⟩
      intro eff heff
      by_cases hw : s'.wsOpen
      · simp [step, hw] at heff
        subst heff
        rfl
      · simp [step, hw] at heff
    | wsOpenEv =>
      refine ⟨by simp [step, hsr], by simp [step, hrt], ?_⟩
      intro eff heff
      simp [step] at heff
    | wsError =>
      refine ⟨by simp [step, hsr], by simp [step, hrt], ?_⟩
      intro eff heff
      simp [step] at heff
    | timeoutFire id =>
      cases hpl : plook id s'.pending with
      | none =>
        refine ⟨by simp [step, hpl, hsr], by simp [step, hpl, hrt], ?_⟩
        intro eff heff
        simp [step, hpl] at heff
      | some k =>
        cases k with
        | connectH =>
          refine ⟨by simp [step, hpl, hsr], by simp [step, hpl, hrt], ?_⟩
          intro eff heff
          simp [step, hpl] at heff
        | rpcH meth tmo =>
          refine ⟨by simp [step, hpl, hsr], by simp [step, hpl, hrt], ?_⟩
          intro eff heff
          simp [step, hpl] at heff
          subst heff
          rfl
    | retryFire =>
      refine ⟨by simp [step, hrt, hsr], by simp [step, hrt], ?_⟩
      intro eff heff
      simp [step, hrt] at heff
    | msg now m =>
      have hstep : step o s' (Ev.msg now m) = handleMessage o now s' m := rfl
      rw [hstep]
      rcases handleMessage_shape o now s' m with
        h0 | ⟨name, pl, h0⟩ | ⟨nonce, h0⟩ | ⟨id, hty, hid, hsub⟩
      · rw [h0]
        exact ⟨hsr, hrt, by intro eff heff; simp at heff⟩
      · rw [h0]
        refine ⟨hsr, hrt, ?_⟩
        intro eff heff
        simp at heff
        subst heff
        rfl
      · rw [h0]
        refine ⟨?_, ?_, ?_⟩
        · rw [sendConnectReq_fst]
          exact hsr
        · rw [sendConnectReq_fst]
          exact hrt
        · intro eff heff
          exact (sendConnectReq_eff_mem o now s' nonce eff heff).1
      · rcases hsub with ⟨hpl, hok, heq⟩ | ⟨meth, tmo, hpl, hok, heq⟩ |
          ⟨hpl, hok, heq⟩ | ⟨meth, tmo, hpl, hok, heq⟩ <;> rw [heq]
        · refine ⟨hsr, hrt, ?_⟩
          intro eff heff
          simp at heff
          subst heff
          rfl
        · refine ⟨hsr, hrt, ?_⟩
          intro eff heff
          simp at heff
          subst heff
          rfl
        · exact ⟨hsr, hrt, by intro eff heff; simp at heff⟩
        · refine ⟨hsr, hrt, ?_⟩
          intro eff heff
          simp at heff
          subst heff
          rfl

theorem c7_disconnect_behaviour_witness :
    (step demoOpts c7DiscState Ev.disconnectCall).1.shouldReconnect
      = false ∧
    (step demoOpts c7DiscState Ev.disconnectCall).1.reconnectTimer
      = none ∧
    (step demoOpts c7DiscState Ev.disconnectCall).1.pending = [] ∧
    (step demoOpts (step demoOpts c7DiscState Ev.disconnectCall).1
        (Ev.wsClose 1006 "gone")).1.status = Status.error ∧
    (step demoOpts (step demoOpts c7DiscState Ev.disconnectCall).1
        (Ev.wsClose 1006 "gone")).1.reconnectTimer = none :=
  ⟨(c7_disconnect_behaviour demoOpts c7DiscState _ rfl).1,
   (c7_disconnect_behaviour demoOpts c7DiscState _ rfl).2.1,
   (c7_disconnect_behaviour demoOpts c7DiscState _ rfl).2.2.2.2.1,
   ((c7_disconnect_behaviour demoOpts c7DiscState _ rfl).2.2.2.2.2.2.1
     1006 "gone").1,
   ((c7_disconnect_behaviour demoOpts c7DiscState _ rfl).2.2.2.2.2.2.1
     1006 "gone").2⟩

/-! ## C10 -/

/-- C10: the pending entry registered by the handshake connect request
carries no timeout timer: the challenge handler registers a
`connectH` entry, an RPC-timeout firing aimed at an id whose pending
entry is the connect entry is a no-op (no `Timeout` rejection is ever
produced for it), and the only steps that remove a pending connect
entry from the map are a response frame carrying its id, a transport
close event, and an explicit `disconnect()`. -/
theorem c10_connect_entry_no_timeout (o : Opts) (s : GwState) (id : String) :
    (∀ (now : Nat) (nonce : Option String),
       plook (mkId (s.reqCounter + 1) now)
         (step o s (Ev.msg now (challengeFrame nonce))).1.pending
       = some PKind.connectH) ∧
    (plook id s.pending = some PKind.connectH →
       step o s (Ev.timeoutFire id) = (s, [])) ∧
    (∀ e, plook id s.pending = some PKind.connectH →
       plook id (step o s e).1.pending = none →
       (∃ now m, e = Ev.msg now m ∧
          m.get? "type" = some (JVal.str "res") ∧
          m.get? "id" = some (JVal.str id)) ∨
       (∃ code reason, e = Ev.wsClose code reason) ∨
       e = Ev.disconnectCall) := by
  refine ⟨?_, ?_, ?_⟩
  · intro now nonce
    simp [step, handleMessage, challengeFrame, eventFrame, JVal.get?,
      getField, sendConnectReq, plook_pset_self]
  · intro h
    simp [step, h]
  · intro e h hafter
    cases e with
    | connectCall => simp [step, h] at hafter
    | wsOpenEv => simp [step, h] at hafter
    | wsError => simp [step, h] at hafter
    | wsClose code reason => exact Or.inr (Or.inl ⟨code, reason, rfl⟩)
    | disconnectCall => exact Or.inr (Or.inr rfl)
    | rpcCall meth params now =>
      by_cases hq : mkId (s.reqCounter + 1) now = id
      · rw [← hq] at hafter
        simp [step, plook_pset_self] at hafter
      · simp [step,
          plook_pset_ne s.pending (mkId (s.reqCounter + 1) now) id _
            (fun hh => hq hh.symm), h] at hafter
    | timeoutFire id2 =>
      cases hpl : plook id2 s.pending with
      | none => simp [step, hpl, h] at hafter
      | some k =>
        cases k with
        | connectH => simp [step, hpl, h] at hafter
        | rpcH meth tmo =>
          by_cases hq : id2 = id
          · subst hq
            rw [h] at hpl
            cases hpl
          · simp [step, hpl,
              plook_pdel_ne s.pending id2 id (fun hh => hq hh.symm),
              h] at hafter
    | retryFire =>
      cases hrt : s.reconnectTimer with
      | none => simp [step, hrt, h] at hafter
      | some d => simp [step, hrt, h] at hafter
    | msg now m =>
      have hstep : step o s (Ev.msg now m) = handleMessage o now s m := rfl
      rw [hstep] at hafter
      rcases handleMessage_shape o now s m with
        h0 | ⟨name, pl, h0⟩ | ⟨nonce, h0⟩ | ⟨id2, hty, hid, hsub⟩
      · rw [h0] at hafter
        rw [h] at hafter
        cases hafter
      · rw [h0] at hafter
        rw [h] at hafter
        cases hafter
      · rw [h0, sendConnectReq_fst] at hafter
        by_cases hq : mkId (s.reqCounter + 1) now = id
        · rw [← hq] at hafter
          simp [plook_pset_self] at hafter
        · rw [show ({ s with
                reqCounter := s.reqCounter + 1
                pending := pset s.pending (mkId (s.reqCounter + 1) now)
                  PKind.connectH } : GwState).pending
              = pset s.pending (mkId (s.reqCounter + 1) now) PKind.connectH
              from rfl,
            plook_pset_ne s.pending (mkId (s.reqCounter + 1) now) id _
              (fun hh => hq hh.symm), h] at hafter
          cases hafter
      · have hpend : (handleMessage o now s m).1.pending
            = pdel id2 s.pending := by
          rcases hsub with ⟨_, _, heq⟩ | ⟨_, _, _, _, heq⟩ | ⟨_, _, heq⟩ |
            ⟨_, _, _, _, heq⟩ <;> rw [heq]
        rw [hpend] at hafter
        by_cases hq : id2 = id
        · subst hq
          exact Or.inl ⟨now, m, rfl, hty, hid⟩
        · rw [plook_pdel_ne s.pending id2 id (fun hh => hq hh.symm), h]
            at hafter
          cases hafter

theorem c10_connect_entry_no_timeout_witness :
    plook "r_1_5"
      (step demoOpts connPendingState
        (Ev.msg 5 (challengeFrame (some "n")))).1.pending
      = some PKind.connectH ∧
    step demoOpts connPendingState (Ev.timeoutFire "c1")
      = (connPendingState, []) ∧
    ((∃ now m, (Ev.wsClose 1 "x" : Ev) = Ev.msg now m ∧
        m.get? "type" = some (JVal.str "res") ∧
        m.get? "id" = some (JVal.str "c1")) ∨
     (∃ code reason, (Ev.wsClose 1 "x" : Ev) = Ev.wsClose code reason) ∨
     (Ev.wsClose 1 "x" : Ev) = Ev.disconnectCall) :=
  ⟨(c10_connect_entry_no_timeout demoOpts connPendingState "c1").1 5
     (some "n"),
   (c10_connect_entry_no_timeout demoOpts connPendingState "c1").2.1
     (by decide),
   (c10_connect_entry_no_timeout demoOpts connPendingState "c1").2.2
     (Ev.wsClose 1 "x") (by decide) (by decide)⟩

/-! ## Witness instances -/

/-- The auth parameters of the handshake with nonce "abc". -/
def demoAuthParams : DeviceAuthParams :=
  { deviceId := "d"
    clientId := "openclaw-control-ui"
    clientMode := "webchat"
    role := "operator"
    scopes := uiScopes
    signedAtMs := 7
    token := some "t"
    nonce := some "abc" }

/-- The auth parameters of the handshake with no nonce. -/
def demoAuthParamsV1 : DeviceAuthParams :=
  { demoAuthParams with nonce := none }

theorem c2_auth_payload_witness :
    buildDeviceAuthPayload demoAuthParams =
      "v2" ++ "|" ++ demoAuthParams.deviceId ++ "|" ++
        demoAuthParams.clientId ++ "|" ++ demoAuthParams.clientMode ++
        "|" ++ demoAuthParams.role ++ "|" ++
        joinSep "," demoAuthParams.scopes ++ "|" ++
        toString demoAuthParams.signedAtMs ++ "|" ++
        demoAuthParams.token.getD "" ++ "|" ++ "abc" ∧
    buildDeviceAuthPayload demoAuthParamsV1 =
      "v1" ++ "|" ++ demoAuthParamsV1.deviceId ++ "|" ++
        demoAuthParamsV1.clientId ++ "|" ++ demoAuthParamsV1.clientMode ++
        "|" ++ demoAuthParamsV1.role ++ "|" ++
        joinSep "," demoAuthParamsV1.scopes ++ "|" ++
        toString demoAuthParamsV1.signedAtMs ++ "|" ++
        demoAuthParamsV1.token.getD "" :=
  ⟨(c2_auth_payload demoAuthParams).1 "abc" rfl (by decide),
   (c2_auth_payload demoAuthParamsV1).2.1 (Or.inl rfl)⟩

/-- A state with two pending RPC entries. -/
def twoRpcState : GwState :=
  { initState with
      pending := [("a", PKind.rpcH "m" 30000), ("b", PKind.rpcH "k" 30000)] }

theorem c3_res_routing_witness :
    step demoOpts twoRpcState (Ev.msg 5 (resFrame "a" true (JVal.str "P"))) =
      ({ twoRpcState with pending := pdel "a" twoRpcState.pending },
       [Eff.resolved "a" (JVal.str "P")]) ∧
    step demoOpts twoRpcState (Ev.msg 5 (resFrame "zz" true JVal.null)) =
      (twoRpcState, []) ∧
    plook "b" (pdel "a" twoRpcState.pending) = plook "b" twoRpcState.pending :=
  ⟨(c3_res_routing demoOpts twoRpcState 5 "a" (JVal.str "P")).1 "m" 30000
     (by decide),
   (c3_res_routing demoOpts twoRpcState 5 "zz" JVal.null).2.1 (by decide),
   (c3_res_routing demoOpts twoRpcState 5 "a" (JVal.str "P")).2.2 "b"
     (by decide)⟩

/-- A state whose supervisor is armed for automatic reconnection. -/
def armedState : GwState := { initState with shouldReconnect := true }

/-- A state whose reconnect timer is armed with the floor delay. -/
def timerState : GwState := { initState with reconnectTimer := some 1000 }

theorem c4_backoff_policy_witness :
    (step demoOpts armedState (Ev.wsClose 1 "x")).1.reconnectTimer
      = some armedState.backoffMs ∧
    (step demoOpts timerState Ev.retryFire).1.backoffMs
      = nextBackoff timerState.backoffMs ∧
    (step demoOpts connPendingState
        (Ev.msg 5 (resFrame "c1" true JVal.null))).1.backoffMs = 1000 :=
  ⟨c4_backoff_policy.1 demoOpts armedState 1 "x" rfl,
   c4_backoff_policy.2.1 demoOpts timerState 1000 rfl,
   c4_backoff_policy.2.2.2.2.2.2.2 demoOpts connPendingState "c1" 5
     JVal.null (by decide)⟩

/-- The parameter object of the witnessed `chat.history` call. -/
def c6Params : JVal :=
  .obj [("sessionKey", .str "s"), ("limit", .num 200)]

/-- The state right after the witnessed `chat.history` call. -/
def c6s1 : GwState :=
  (step demoOpts initState (Ev.rpcCall "chat.history" c6Params 5)).1

/-- The state right after the witnessed call timed out. -/
def c6s2 : GwState := (step demoOpts c6s1 (Ev.timeoutFire "r_1_5")).1

theorem c6_rpc_timeout_witness :
    rpcTimeoutMs = 30000 ∧
    plook "r_1_5" c6s1.pending
      = some (PKind.rpcH "chat.history" rpcTimeoutMs) ∧
    step demoOpts c6s1 (Ev.timeoutFire "r_1_5") =
      ({ c6s1 with pending := pdel "r_1_5" c6s1.pending },
       [Eff.rejected "r_1_5" ("RPC timeout: " ++ "chat.history")]) ∧
    c6s2.status = initState.status ∧
    step demoOpts c6s2 (Ev.msg 9 (resFrame "r_1_5" true JVal.null))
      = (c6s2, []) :=
  ⟨(c6_rpc_timeout demoOpts initState "chat.history" c6Params 5 9 JVal.null
      "r_1_5" c6s1 c6s2 (by decide) rfl rfl).1,
   (c6_rpc_timeout demoOpts initState "chat.history" c6Params 5 9 JVal.null
      "r_1_5" c6s1 c6s2 (by decide) rfl rfl).2.1,
   (c6_rpc_timeout demoOpts initState "chat.history" c6Params 5 9 JVal.null
      "r_1_5" c6s1 c6s2 (by decide) rfl rfl).2.2.1,
   (c6_rpc_timeout demoOpts initState "chat.history" c6Params 5 9 JVal.null
      "r_1_5" c6s1 c6s2 (by decide) rfl rfl).2.2.2.1,
   (c6_rpc_timeout demoOpts initState "chat.history" c6Params 5 9 JVal.null
      "r_1_5" c6s1 c6s2 (by decide) rfl rfl).2.2.2.2.2.2.2⟩

/-- A state with one pending RPC entry under id "x". -/
def c8State : GwState :=
  { initState with pending := [("x", PKind.rpcH "m" 30000)] }

theorem c8_error_messages_witness :
    step demoOpts c8State (Ev.msg 0 (resErrFrame "x" (JVal.str "boom"))) =
      ({ c8State with pending := pdel "x" c8State.pending },
       [Eff.rejected "x" "boom"]) ∧
    step demoOpts c8State
        (Ev.msg 0 (resErrFrame "x" (JVal.obj [("message", JVal.num 5)])))
      = ({ c8State with pending := pdel "x" c8State.pending },
         [Eff.rejected "x" (jsToString (JVal.num 5))]) ∧
    jsToString (JVal.num 5) = "5" ∧
    step demoOpts c8State
        (Ev.msg 0 (resErrFrame "x" (JVal.obj [("message", JVal.str "bad")])))
      = ({ c8State with pending := pdel "x" c8State.pending },
         [Eff.rejected "x" "bad"]) ∧
    step demoOpts c8State
        (Ev.msg 0 (resErrFrame "x" (JVal.obj [("message", JVal.str "")])))
      = ({ c8State with pending := pdel "x" c8State.pending },
         [Eff.rejected "x" "RPC error"]) ∧
    step demoOpts c8State (Ev.msg 0 (resNoErrFrame "x")) =
      ({ c8State with pending := pdel "x" c8State.pending },
       [Eff.rejected "x" "RPC error"]) :=
  ⟨(c8_error_messages demoOpts c8State 0 "x" "m" 30000 (by decide)).1 "boom",
   (c8_error_messages demoOpts c8State 0 "x" "m" 30000 (by decide)).2.1
     (JVal.num 5) (by decide),
   by simp [jsToString]; rfl,
   (c8_error_messages demoOpts c8State 0 "x" "m" 30000 (by decide)).2.2.1
     "bad" (by decide),
   (c8_error_messages demoOpts c8State 0 "x" "m" 30000 (by decide)).2.2.2.1
     (JVal.str "") (by decide),
   (c8_error_messages demoOpts c8State 0 "x" "m" 30000
     (by decide)).2.2.2.2.2.2⟩

theorem c9_event_dispatch_witness :
    step demoOpts initState
        (Ev.msg 0 (eventFrame "chat.message" (JVal.obj [("a", JVal.num 1)])))
      = (initState,
         [Eff.onEvent (JVal.str "chat.message")
           (JVal.obj [("a", JVal.num 1)])]) ∧
    plook "r_1_0"
      (step demoOpts initState
        (Ev.msg 0 (eventFrame "connect.challenge" JVal.null))).1.pending
      = some PKind.connectH :=
  ⟨(c9_event_dispatch demoOpts initState 0 "chat.message"
      [("a", JVal.num 1)]).1 (by decide),
   (c9_event_dispatch demoOpts initState 0 "chat.message"
      [("a", JVal.num 1)]).2.2 JVal.null⟩
